import Mathlib

/-!
Verification of the GUAC assembler core: the GraphQL entity/graph schema
(`pkg/assembler/graphql/schema.graphql`) and the storage backend contract
(`pkg/assembler/backends/backends.go`).

The schema is embedded as data (a list of type definitions transcribed from
`schema.graphql`), the Go interfaces as lists of method signatures, and the
entity model as Lean structures/inductives mirroring the schema's shapes.
Behavior that the repository specifies but does not implement in these files
(identity validation, union resolution, backend error semantics) is modelled
from the specification and marked as such on each definition.
-/

/-- A GraphQL type reference: a named type (nullable by default), a list
type, or a non-null wrapper, as used in `schema.graphql`. -/
inductive GqlType where
  | named : String → GqlType
  | list : GqlType → GqlType
  | nonNull : GqlType → GqlType
deriving DecidableEq, Repr

/-- A field of a GraphQL object or interface type: its name, its arguments
(name/type pairs) and its result type. -/
structure GqlField where
  name : String
  args : List (String × GqlType)
  type : GqlType
deriving DecidableEq, Repr

/-- A top-level definition in `schema.graphql`: an object type (with the
interfaces it implements and its fields), an interface type, or a union
over a closed list of variant type names. -/
inductive GqlTypeDef where
  | object : String → List String → List GqlField → GqlTypeDef
  | interfaceDef : String → List GqlField → GqlTypeDef
  | union : String → List String → GqlTypeDef
deriving DecidableEq, Repr

/-- Name of a top-level schema definition. -/
def GqlTypeDef.name : GqlTypeDef → String
  | .object n _ _ => n
  | .interfaceDef n _ => n
  | .union n _ => n

/-- The two fields of the `NodeInfo` interface (`sourceInfo`,
`collectorInfo`), both nullable strings; inherited by every node type. -/
def nodeInfoFields : List GqlField :=
  [⟨"sourceInfo", [], .named "String"⟩,
   ⟨"collectorInfo", [], .named "String"⟩]

/-- The full schema transcribed from `pkg/assembler/graphql/schema.graphql`. -/
def guacSchema : List GqlTypeDef :=
  [ .interfaceDef "NodeInfo" nodeInfoFields,
    .object "Artifact" ["NodeInfo"]
      [⟨"digest", [], .nonNull (.named "String")⟩,
       ⟨"name", [], .named "String"⟩,
       ⟨"tags", [], .nonNull (.list (.nonNull (.named "String")))⟩,
       ⟨"sourceInfo", [], .named "String"⟩,
       ⟨"collectorInfo", [], .named "String"⟩,
       ⟨"builtBy", [], .nonNull (.list (.nonNull (.named "Builder")))⟩,
       ⟨"dependsOn", [], .nonNull (.list (.nonNull (.named "ArtifactOrPackage")))⟩],
    .object "Package" ["NodeInfo"]
      [⟨"purl", [], .nonNull (.named "String")⟩,
       ⟨"name", [], .named "String"⟩,
       ⟨"version", [], .named "String"⟩,
       ⟨"digest", [], .nonNull (.list (.nonNull (.named "String")))⟩,
       ⟨"CPEs", [], .nonNull (.list (.nonNull (.named "String")))⟩,
       ⟨"tags", [], .nonNull (.list (.nonNull (.named "String")))⟩,
       ⟨"sourceInfo", [], .named "String"⟩,
       ⟨"collectorInfo", [], .named "String"⟩,
       ⟨"contains", [], .nonNull (.list (.nonNull (.named "Artifact")))⟩,
       ⟨"dependsOn", [], .nonNull (.list (.nonNull (.named "ArtifactOrPackage")))⟩],
    .union "ArtifactOrPackage" ["Artifact", "Package"],
    .object "Builder" ["NodeInfo"]
      [⟨"type", [], .nonNull (.named "String")⟩,
       ⟨"id", [], .nonNull (.named "String")⟩,
       ⟨"sourceInfo", [], .named "String"⟩,
       ⟨"collectorInfo", [], .named "String"⟩],
    .object "Attestation" ["NodeInfo"]
      [⟨"digest", [], .nonNull (.named "String")⟩,
       ⟨"filePath", [], .named "String"⟩,
       ⟨"type", [], .named "String"⟩,
       ⟨"payload", [], .named "AttestationPayload"⟩,
       ⟨"sourceInfo", [], .named "String"⟩,
       ⟨"collectorInfo", [], .named "String"⟩,
       ⟨"attestedObjects", [], .nonNull (.list (.nonNull (.named "ArtifactOrPackage")))⟩,
       ⟨"vulnerabilities", [], .nonNull (.list (.nonNull (.named "Vulnerability")))⟩],
    .union "AttestationPayload" ["VEXPayload"],
    .object "Metadata" ["NodeInfo"]
      [⟨"type", [], .nonNull (.named "String")⟩,
       ⟨"id", [], .nonNull (.named "String")⟩,
       ⟨"payload", [], .named "MetadataPayload"⟩,
       ⟨"sourceInfo", [], .named "String"⟩,
       ⟨"collectorInfo", [], .named "String"⟩,
       ⟨"attachedTo", [], .nonNull (.list (.nonNull (.named "ArtifactOrPackage")))⟩],
    .union "MetadataPayload" ["ScorecardPayload"],
    .object "Identity" ["NodeInfo"]
      [⟨"digest", [], .nonNull (.named "String")⟩,
       ⟨"id", [], .nonNull (.named "String")⟩,
       ⟨"key", [], .named "String"⟩,
       ⟨"keyType", [], .named "String"⟩,
       ⟨"keyScheme", [], .named "String"⟩,
       ⟨"sourceInfo", [], .named "String"⟩,
       ⟨"collectorInfo", [], .named "String"⟩,
       ⟨"attestations", [], .nonNull (.list (.nonNull (.named "Attestation")))⟩],
    .object "ScorecardPayload" []
      [⟨"repo", [], .nonNull (.named "String")⟩,
       ⟨"commit", [], .nonNull (.named "String")⟩,
       ⟨"scorecard_version", [], .nonNull (.named "String")⟩,
       ⟨"scorecard_commit", [], .nonNull (.named "String")⟩,
       ⟨"aggregate_score", [], .nonNull (.named "Float")⟩],
    .object "Vulnerability" ["NodeInfo"]
      [⟨"id", [], .nonNull (.named "String")⟩,
       ⟨"sourceInfo", [], .named "String"⟩,
       ⟨"collectorInfo", [], .named "String"⟩],
    .object "VEXPayload" []
      [⟨"invocation", [], .nonNull (.named "VEXInvocation")⟩,
       ⟨"scanner", [], .nonNull (.named "VEXScanner")⟩,
       ⟨"vulnerabilities", [], .nonNull (.list (.nonNull (.named "VEXVulnerability")))⟩],
    .object "VEXInvocation" []
      [⟨"parameters", [], .nonNull (.list (.nonNull (.named "String")))⟩,
       ⟨"uri", [], .nonNull (.named "String")⟩,
       ⟨"eventID", [], .nonNull (.named "String")⟩,
       ⟨"producerID", [], .nonNull (.named "String")⟩,
       ⟨"scannedOn", [], .nonNull (.named "String")⟩],
    .object "VEXScanner" []
      [⟨"uri", [], .nonNull (.named "String")⟩,
       ⟨"version", [], .nonNull (.named "String")⟩,
       ⟨"db_uri", [], .nonNull (.named "String")⟩,
       ⟨"db_version", [], .nonNull (.named "String")⟩],
    .object "VEXVulnerability" []
      [⟨"id", [], .nonNull (.named "String")⟩,
       ⟨"aliases", [], .nonNull (.list (.nonNull (.named "String")))⟩],
    .object "Query" []
      [⟨"artifacts", [], .nonNull (.list (.nonNull (.named "Artifact")))⟩] ]

/-- Look up a top-level schema definition by name. -/
def lookupDef (n : String) : Option GqlTypeDef :=
  guacSchema.find? (fun d => d.name == n)

/-- The fields of the schema's `Query` root object type. -/
def queryFields : List GqlField :=
  match lookupDef "Query" with
  | some (.object _ _ fs) => fs
  | _ => []

/-- The declared type of a field of a named object type in the schema. -/
def fieldType (tyName fieldName : String) : Option GqlType :=
  match lookupDef tyName with
  | some (.object _ _ fs) =>
      (fs.find? (fun f => f.name == fieldName)).map (fun f => f.type)
  | some (.interfaceDef _ fs) =>
      (fs.find? (fun f => f.name == fieldName)).map (fun f => f.type)
  | _ => none

/-- The variant list of a named union type in the schema. -/
def unionVariants (tyName : String) : Option (List String) :=
  match lookupDef tyName with
  | some (.union _ vs) => some vs
  | _ => none

/-- Underlying named type of a GraphQL type reference, stripping list and
non-null wrappers. -/
def GqlType.baseName : GqlType → String
  | .named n => n
  | .list t => t.baseName
  | .nonNull t => t.baseName

/-- All type names a field refers to: its result type and its argument
types. -/
def fieldRefs (f : GqlField) : List String :=
  f.type.baseName :: f.args.map (fun a => a.2.baseName)

/-- Type names directly referenced from the definition of type `n`: field
result/argument types for object and interface types, the variant names for
a union. Scalars and undefined names reference nothing. -/
def succs (n : String) : List String :=
  match lookupDef n with
  | some (.object _ _ fs) => fs.flatMap fieldRefs
  | some (.interfaceDef _ fs) => fs.flatMap fieldRefs
  | some (.union _ vs) => vs
  | none => []

/-- Type names reachable from the `Query` root by following declared field
edges and union variants. -/
inductive ReachableFromQuery : String → Prop where
  | root : ReachableFromQuery "Query"
  | step {n m : String} : ReachableFromQuery n → m ∈ succs n → ReachableFromQuery m

/-- The names reachable from `Query`, computed by hand from the schema and
proved closed under `succs` below. -/
def allowedReach : List String :=
  ["Query", "Artifact", "String", "Builder", "ArtifactOrPackage", "Package"]

/-- Builder nodes (`type Builder implements NodeInfo` in the schema): a
required type/id pair plus the optional provenance fields. -/
structure Builder where
  type : String
  id : String
  sourceInfo : Option String
  collectorInfo : Option String

mutual

/-- Artifact nodes from the schema: required `digest`, optional `name`,
required `tags` list, the `NodeInfo` provenance fields, and the `builtBy`
and `dependsOn` edges. -/
inductive Artifact where
  | mk : String → Option String → List String → Option String → Option String →
         List Builder → List ArtifactOrPackage → Artifact

/-- Package nodes from the schema: required `purl`, optional `name` and
`version`, required `digest`/`CPEs`/`tags` lists, the provenance fields,
and the `contains` and `dependsOn` edges. -/
inductive Package where
  | mk : String → Option String → Option String → List String → List String →
         List String → Option String → Option String → List Artifact →
         List ArtifactOrPackage → Package

/-- The closed union `ArtifactOrPackage = Artifact | Package` from the
schema: a value is exactly one of the two variants. -/
inductive ArtifactOrPackage where
  | artifact : Artifact → ArtifactOrPackage
  | package : Package → ArtifactOrPackage

end

/-- The `digest` field of an artifact. -/
def Artifact.digest : Artifact → String
  | .mk d _ _ _ _ _ _ => d

/-- The `name` field of an artifact. -/
def Artifact.name : Artifact → Option String
  | .mk _ n _ _ _ _ _ => n

/-- The `tags` field of an artifact. -/
def Artifact.tags : Artifact → List String
  | .mk _ _ t _ _ _ _ => t

/-- The `builtBy` edge list of an artifact. -/
def Artifact.builtBy : Artifact → List Builder
  | .mk _ _ _ _ _ b _ => b

/-- The `dependsOn` edge list of an artifact. -/
def Artifact.dependsOn : Artifact → List ArtifactOrPackage
  | .mk _ _ _ _ _ _ d => d

/-- The `purl` identity field of a package. -/
def Package.purl : Package → String
  | .mk p _ _ _ _ _ _ _ _ _ => p

/-- Discriminant tags for the `ArtifactOrPackage` union. -/
inductive VariantTag where
  | artifactTag
  | packageTag
deriving DecidableEq, Repr

/-- The discriminant tag carried by a resolved `ArtifactOrPackage` value. -/
def ArtifactOrPackage.tag : ArtifactOrPackage → VariantTag
  | .artifact _ => .artifactTag
  | .package _ => .packageTag

/-- The error taxonomy of the design: `InvalidIdentity`, `UnknownVariant`,
`BackendUnavailable` and the catch-all `QueryFailed`. -/
inductive GuacError where
  | invalidIdentity
  | unknownVariant
  | backendUnavailable
  | queryFailed : String → GuacError
deriving DecidableEq, Repr

/-- Split a character list at every colon. Always returns at least one
part; a string with no colon is a single part. -/
def colonSplits : List Char → List (List Char)
  | [] => [[]]
  | c :: rest =>
    match colonSplits rest with
    | [] => [[]]
    | p :: ps => if c = ':' then [] :: p :: ps else (c :: p) :: ps

/-- Whether a split result is exactly two non-empty parts. -/
def twoNonEmpty : List (List Char) → Bool
  | [a, v] => !a.isEmpty && !v.isEmpty
  | _ => false

/-- Modelled from the spec: identity validation for digest strings, which
the repository documents on `Artifact.digest` (format `algorithm:value`)
but implements in no file under src/. A digest is valid when it splits at
the colon into exactly two non-empty parts. -/
def validDigest (s : String) : Bool :=
  twoNonEmpty (colonSplits s.data)

/-- Modelled from the spec: entity construction with eager identity
validation, which the repository specifies (fail with `InvalidIdentity` on
a malformed digest) but implements in no file under src/. -/
def mkArtifact (digest : String) (name : Option String) (tags : List String)
    (sourceInfo : Option String) (collectorInfo : Option String)
    (builtBy : List Builder) (dependsOn : List ArtifactOrPackage) :
    Except GuacError Artifact :=
  if validDigest digest then
    .ok (.mk digest name tags sourceInfo collectorInfo builtBy dependsOn)
  else
    .error .invalidIdentity

/-- Modelled from the spec: a raw shape as a backend could hand it to
union resolution — a type name plus whichever concrete data the shape
actually carries. No resolver exists under src/. -/
structure RawShape where
  typename : String
  asArtifact : Option Artifact
  asPackage : Option Package

/-- Modelled from the spec: resolution of an `ArtifactOrPackage` edge. A
shape resolves to the variant its type name designates, paired with the
discriminant tag; any shape outside the declared variant set fails with
`UnknownVariant` and is never coerced to a default variant. -/
def resolveArtifactOrPackage (s : RawShape) :
    Except GuacError (VariantTag × ArtifactOrPackage) :=
  if s.typename = "Artifact" then
    match s.asArtifact with
    | some a => .ok (.artifactTag, .artifact a)
    | none => .error .unknownVariant
  else if s.typename = "Package" then
    match s.asPackage with
    | some p => .ok (.packageTag, .package p)
    | none => .error .unknownVariant
  else
    .error .unknownVariant

/-- A Go method signature: name, argument types and result types, written
as the Go source spells them. -/
structure GoMethodSig where
  name : String
  argTypes : List String
  resultTypes : List String
deriving DecidableEq, Repr

/-- The `Backend` interface from `pkg/assembler/backends/backends.go`: the
single method `Artifacts(ctx context.Context) ([]*model.Artifact, error)`. -/
def backendContract : List GoMethodSig :=
  [⟨"Artifacts", ["context.Context"], ["[]*model.Artifact", "error"]⟩]

/-- The `BackendArgs` interface from `backends.go`: `interface{}`, the
empty method set. -/
def backendArgsContract : List GoMethodSig := []

/-- Go interface satisfaction: a type with method set `methods` satisfies
an interface when it provides every method the interface requires. -/
def satisfiesGoInterface (methods iface : List GoMethodSig) : Prop :=
  ∀ m ∈ iface, m ∈ methods

/-- Vulnerability nodes from the schema: required `id` plus the provenance
fields. -/
structure Vulnerability where
  id : String
  sourceInfo : Option String
  collectorInfo : Option String

/-- `VEXInvocation` from the schema: the ordered `parameters` list and the
required `uri`, `eventID`, `producerID`, `scannedOn` strings. -/
structure VEXInvocation where
  parameters : List String
  uri : String
  eventID : String
  producerID : String
  scannedOn : String

/-- `VEXScanner` from the schema: four required strings. -/
structure VEXScanner where
  uri : String
  version : String
  db_uri : String
  db_version : String

/-- `VEXVulnerability` from the schema: required `id` and the alias list. -/
structure VEXVulnerability where
  id : String
  aliases : List String

/-- `VEXPayload` from the schema: one invocation, one scanner and the list
of vulnerabilities found. -/
structure VEXPayload where
  invocation : VEXInvocation
  scanner : VEXScanner
  vulnerabilities : List VEXVulnerability

/-- The closed union `AttestationPayload = VEXPayload` from the schema. -/
inductive AttestationPayload where
  | vex : VEXPayload → AttestationPayload

/-- Attestation nodes from the schema: required `digest`, optional
`filePath` and `type`, an optional payload, the provenance fields, and the
`attestedObjects` and `vulnerabilities` edges. -/
structure Attestation where
  digest : String
  filePath : Option String
  type : Option String
  payload : Option AttestationPayload
  sourceInfo : Option String
  collectorInfo : Option String
  attestedObjects : List ArtifactOrPackage
  vulnerabilities : List Vulnerability

/-- Modelled from the spec: the state of a reference in-memory backend —
its stored artifacts plus whether its storage is reachable. The repository
declares the `Backend` interface but contains no implementation under
src/. -/
structure StorageState where
  reachable : Bool
  artifacts : List Artifact

/-- Modelled from the spec: the `Artifacts`/`ListArtifacts` contract
operation of the reference in-memory backend. On reachable storage it
returns the complete set of known artifacts; on unreachable storage it
surfaces `BackendUnavailable` instead of an empty result. -/
def listArtifacts (st : StorageState) : Except GuacError (List Artifact) :=
  if st.reachable then .ok st.artifacts else .error .backendUnavailable

/-- Modelled from the spec: storing an attestation in an in-memory store
(most recent record first). No store exists under src/. -/
def storeAttestation (store : List Attestation) (a : Attestation) :
    List Attestation :=
  a :: store

/-- Modelled from the spec: retrieving an attestation from the in-memory
store by its `digest` identity. -/
def retrieveAttestation (store : List Attestation) (digest : String) :
    Option Attestation :=
  store.find? (fun a => a.digest == digest)

/-- Modelled from the spec: the operations a caller can schedule against a
backend instance. The contract's current surface is read-only — its only
operation is the artifact listing, tagged with the id of the caller that
issued it. -/
inductive BackendOp where
  | listOp : Nat → BackendOp

/-- Modelled from the spec: one atomic step of a backend serving one
scheduled operation — it returns the possibly-updated storage state and
the caller's observed result. The listing operation reads and never
mutates. -/
def applyOp (st : StorageState) (op : BackendOp) :
    StorageState × (Nat × Except GuacError (List Artifact)) :=
  match op with
  | .listOp caller => (st, (caller, listArtifacts st))

/-- Modelled from the spec: run a whole interleaving (schedule) of
operations issued by concurrent callers, threading the storage state
through and collecting each caller's observed result. -/
def runSchedule (st : StorageState) : List BackendOp →
    List (Nat × Except GuacError (List Artifact))
  | [] => []
  | op :: rest =>
    let step := applyOp st op
    step.2 :: runSchedule step.1 rest

theorem colonSplits_ne_nil (l : List Char) : colonSplits l ≠ [] := by
  induction l with
  | nil => simp [colonSplits]
  | cons c rest ih =>
    unfold colonSplits
    split
    · simp
    · split <;> simp

theorem colonSplits_no_colon (l : List Char) (h : ':' ∉ l) :
    colonSplits l = [l] := by
  induction l with
  | nil => rfl
  | cons c rest ih =>
    have hc : c ≠ ':' := fun e => h (e ▸ List.mem_cons_self c rest)
    have hr : ':' ∉ rest := fun m => h (List.mem_cons_of_mem c m)
    simp [colonSplits, ih hr, hc]

theorem colonSplits_append (a v : List Char) (ha : ':' ∉ a) :
    colonSplits (a ++ ':' :: v) = a :: colonSplits v := by
  induction a with
  | nil =>
    cases h : colonSplits v with
    | nil => exact absurd h (colonSplits_ne_nil v)
    | cons p ps => simp [colonSplits, h]
  | cons c a ih =>
    have hc : c ≠ ':' := fun e => ha (e ▸ List.mem_cons_self c a)
    have ha2 : ':' ∉ a := fun m => ha (List.mem_cons_of_mem c m)
    simp [colonSplits, ih ha2, hc]

theorem twoNonEmpty_nil_head (p : List Char) (ps : List (List Char)) :
    twoNonEmpty ([] :: p :: ps) = false := by
  cases ps <;> rfl

/-- Claim C1: the backend contract exposes exactly one query operation —
`Artifacts`, taking only a caller context and returning an artifact
sequence or an error — the schema's `Query` root has the single field
`artifacts` with no pagination, cursor or limit arguments, and a successful
listing is the complete set of known artifacts, never a proper subset. -/
theorem backend_single_complete_query :
    backendContract.length = 1
    ∧ backendContract =
        [⟨"Artifacts", ["context.Context"], ["[]*model.Artifact", "error"]⟩]
    ∧ queryFields = [⟨"artifacts", [], .nonNull (.list (.nonNull (.named "Artifact")))⟩]
    ∧ (∀ f ∈ queryFields, f.args = [])
    ∧ (∀ st l, listArtifacts st = .ok l → l = st.artifacts) := by
  refine ⟨rfl, rfl, by decide, by decide, ?_⟩
  intro st l h
  unfold listArtifacts at h
  by_cases hr : st.reachable
  · rw [if_pos hr] at h
    exact (Except.ok.injEq _ _ ▸ congrArg id h : st.artifacts = l).symm
  · rw [if_neg hr] at h
    exact Except.noConfusion h

theorem backend_single_complete_query_witness :
    ([] : List Artifact) = (StorageState.mk true []).artifacts :=
  backend_single_complete_query.2.2.2.2 (StorageState.mk true []) [] rfl

/-- Claim C2: every `ArtifactOrPackage` value is exactly one of the two
declared variants, with a discriminant tag matching the concrete data and
no third state; resolution of a raw backend shape either returns such a
tagged variant or fails with `UnknownVariant` when the shape matches no
declared variant, never coercing to a default. -/
theorem union_resolution_exact_variant :
    (∀ x : ArtifactOrPackage,
        ((∃ a, x = .artifact a) ∧ x.tag = .artifactTag ∧ ¬ ∃ p, x = .package p)
      ∨ ((∃ p, x = .package p) ∧ x.tag = .packageTag ∧ ¬ ∃ a, x = .artifact a))
    ∧ (∀ s t v, resolveArtifactOrPackage s = .ok (t, v) → t = v.tag)
    ∧ (∀ s : RawShape, s.typename ≠ "Artifact" → s.typename ≠ "Package" →
        resolveArtifactOrPackage s = .error .unknownVariant)
    ∧ unionVariants "ArtifactOrPackage" = some ["Artifact", "Package"] := by
  refine ⟨?_, ?_, ?_, by decide⟩
  · intro x
    cases x with
    | artifact a =>
      exact .inl ⟨⟨a, rfl⟩, rfl, fun ⟨p, hp⟩ => ArtifactOrPackage.noConfusion hp⟩
    | package p =>
      exact .inr ⟨⟨p, rfl⟩, rfl, fun ⟨a, ha⟩ => ArtifactOrPackage.noConfusion ha⟩
  · intro s t v h
    unfold resolveArtifactOrPackage at h
    by_cases h1 : s.typename = "Artifact"
    · rw [if_pos h1] at h
      cases hA : s.asArtifact with
      | none => rw [hA] at h; exact Except.noConfusion h
      | some a =>
        rw [hA] at h
        injection h with h2
        injection h2 with ht hv
        subst ht
        subst hv
        rfl
    · rw [if_neg h1] at h
      by_cases h2 : s.typename = "Package"
      · rw [if_pos h2] at h
        cases hP : s.asPackage with
        | none => rw [hP] at h; exact Except.noConfusion h
        | some p =>
          rw [hP] at h
          injection h with h3
          injection h3 with ht hv
          subst ht
          subst hv
          rfl
      · rw [if_neg h2] at h
        exact Except.noConfusion h
  · intro s h1 h2
    unfold resolveArtifactOrPackage
    rw [if_neg h1, if_neg h2]

theorem union_resolution_exact_variant_witness :
    VariantTag.packageTag =
      (ArtifactOrPackage.package (Package.mk "pkg:npm/x" none none [] [] [] none none [] [])).tag :=
  union_resolution_exact_variant.2.1
    (RawShape.mk "Package" none (some (Package.mk "pkg:npm/x" none none [] [] [] none none [] [])))
    VariantTag.packageTag
    (ArtifactOrPackage.package (Package.mk "pkg:npm/x" none none [] [] [] none none [] []))
    rfl

/-- Claim C3: on unreachable or erroring storage, the listing operation
returns the `BackendUnavailable` error — in particular it is never a
successful result, so it can never be confused with an empty artifact
list. -/
theorem backend_unavailable_not_empty_list (st : StorageState)
    (h : st.reachable = false) :
    listArtifacts st = .error .backendUnavailable
    ∧ ∀ l : List Artifact, listArtifacts st ≠ .ok l := by
  have h1 : listArtifacts st = .error .backendUnavailable := by
    unfold listArtifacts
    rw [h]
    rfl
  exact ⟨h1, fun l hl => Except.noConfusion (h1 ▸ hl)⟩

theorem backend_unavailable_not_empty_list_witness :
    listArtifacts (StorageState.mk false []) = .error .backendUnavailable
    ∧ ∀ l : List Artifact, listArtifacts (StorageState.mk false []) ≠ .ok l :=
  backend_unavailable_not_empty_list (StorageState.mk false []) rfl

/-- Claim C8: the `BackendArgs` placeholder in the shared contract is the
empty Go interface, which every method set (hence every type) satisfies —
so backend initialization arguments are unconstrained by the shared
contract. -/
theorem backend_args_unconstrained :
    backendArgsContract = []
    ∧ ∀ methods : List GoMethodSig, satisfiesGoInterface methods backendArgsContract :=
  ⟨rfl, fun _ m hm => absurd hm (List.not_mem_nil m)⟩

/-- Claim C5: for any candidate digest string that contains no
`algorithm:value` separator, or whose algorithm part is empty, or whose
value part is empty, artifact construction fails with `InvalidIdentity`,
surfaced to the caller as the returned error. -/
theorem invalid_digest_construction_fails (s : String) (name : Option String)
    (tags : List String) (si ci : Option String) (bb : List Builder)
    (dep : List ArtifactOrPackage)
    (h : ':' ∉ s.data ∨ (∃ v, s.data = ':' :: v)
         ∨ (∃ a, ':' ∉ a ∧ s.data = a ++ [':'])) :
    mkArtifact s name tags si ci bb dep = .error .invalidIdentity := by
  have hv : validDigest s = false := by
    unfold validDigest
    rcases h with h | ⟨v, hveq⟩ | ⟨a, hca, haeq⟩
    · rw [colonSplits_no_colon _ h]
      rfl
    · rw [hveq]
      cases h2 : colonSplits v with
      | nil => exact absurd h2 (colonSplits_ne_nil v)
      | cons p ps =>
        have : colonSplits (':' :: v) = [] :: p :: ps := by
          simp [colonSplits, h2]
        rw [this]
        exact twoNonEmpty_nil_head p ps
    · rw [haeq, colonSplits_append a [] hca]
      show twoNonEmpty [a, []] = false
      simp [twoNonEmpty]
  unfold mkArtifact
  rw [hv]
  rfl

theorem invalid_digest_construction_fails_witness :
    mkArtifact "sha256" none [] none none [] [] = .error .invalidIdentity :=
  invalid_digest_construction_fails "sha256" none [] none none [] []
    (Or.inl (by decide))

/-- Claim C6: for every digest of the form `algorithm:value` with non-empty
algorithm and non-empty value (neither containing the separator),
constructing an artifact succeeds and the constructed entity's `digest`
field reproduces the original input string exactly. -/
theorem valid_digest_construction_roundtrip (a v : List Char)
    (name : Option String) (tags : List String) (si ci : Option String)
    (bb : List Builder) (dep : List ArtifactOrPackage)
    (ha : a ≠ []) (hv : v ≠ []) (hca : ':' ∉ a) (hcv : ':' ∉ v) :
    mkArtifact (String.mk (a ++ ':' :: v)) name tags si ci bb dep
      = .ok (Artifact.mk (String.mk (a ++ ':' :: v)) name tags si ci bb dep)
    ∧ (Artifact.mk (String.mk (a ++ ':' :: v)) name tags si ci bb dep).digest
      = String.mk (a ++ ':' :: v) := by
  have hvd : validDigest (String.mk (a ++ ':' :: v)) = true := by
    unfold validDigest
    have hdata : (String.mk (a ++ ':' :: v)).data = a ++ ':' :: v := rfl
    rw [hdata, colonSplits_append a v hca, colonSplits_no_colon v hcv]
    cases a with
    | nil => exact absurd rfl ha
    | cons c as =>
      cases v with
      | nil => exact absurd rfl hv
      | cons d vs => rfl
  constructor
  · unfold mkArtifact
    rw [hvd]
    rfl
  · rfl

theorem valid_digest_construction_roundtrip_witness :
    mkArtifact "sha256:abc" none [] none none [] []
      = .ok (Artifact.mk "sha256:abc" none [] none none [] [])
    ∧ (Artifact.mk "sha256:abc" none [] none none [] []).digest = "sha256:abc" :=
  valid_digest_construction_roundtrip
    ['s', 'h', 'a', '2', '5', '6'] ['a', 'b', 'c'] none [] none none [] []
    (by decide) (by decide) (by decide) (by decide)

/-- Claim C4: the query surface declares every Artifact field with the
stated nullability (`digest` non-null string, `name` nullable, `tags`
non-null list of non-null strings, `sourceInfo`/`collectorInfo` nullable,
`builtBy` non-null list of non-null Builder, `dependsOn` non-null list of
non-null `ArtifactOrPackage`); a constructed artifact carries its digest
non-empty; and every `dependsOn` element is an already-resolved union
variant, never a bare unresolved reference. -/
theorem artifact_fully_populated :
    fieldType "Artifact" "digest" = some (.nonNull (.named "String"))
    ∧ fieldType "Artifact" "name" = some (.named "String")
    ∧ fieldType "Artifact" "tags" = some (.nonNull (.list (.nonNull (.named "String"))))
    ∧ fieldType "Artifact" "sourceInfo" = some (.named "String")
    ∧ fieldType "Artifact" "collectorInfo" = some (.named "String")
    ∧ fieldType "Artifact" "builtBy" = some (.nonNull (.list (.nonNull (.named "Builder"))))
    ∧ fieldType "Artifact" "dependsOn"
        = some (.nonNull (.list (.nonNull (.named "ArtifactOrPackage"))))
    ∧ (∀ d name tags si ci bb dep a,
        mkArtifact d name tags si ci bb dep = .ok a → a.digest = d ∧ a.digest ≠ "")
    ∧ (∀ art : Artifact, ∀ x ∈ art.dependsOn,
        (∃ b, x = ArtifactOrPackage.artifact b) ∨ (∃ p, x = ArtifactOrPackage.package p)) := by
  refine ⟨by decide, by decide, by decide, by decide, by decide, by decide, by decide, ?_, ?_⟩
  · intro d name tags si ci bb dep a h
    unfold mkArtifact at h
    by_cases hv : validDigest d = true
    · rw [if_pos hv] at h
      injection h with h2
      subst h2
      refine ⟨rfl, ?_⟩
      intro he
      have hd : d = "" := he
      rw [hd] at hv
      exact absurd hv (by decide)
    · rw [if_neg hv] at h
      exact Except.noConfusion h
  · intro art x hx
    cases x with
    | artifact b => exact .inl ⟨b, rfl⟩
    | package p => exact .inr ⟨p, rfl⟩

theorem artifact_fully_populated_witness :
    ((Artifact.mk "sha256:abc" none [] none none [] []).digest = "sha256:abc"
      ∧ (Artifact.mk "sha256:abc" none [] none none [] []).digest ≠ "") :=
  artifact_fully_populated.2.2.2.2.2.2.2.1 "sha256:abc" none [] none none [] []
    (Artifact.mk "sha256:abc" none [] none none [] []) rfl

/-- Claim C7: an attestation whose payload is a `VEXPayload` round-trips
through store and retrieve: the retrieved record is the stored one, its
payload is the same `VEXPayload`, and the nested `VEXInvocation.parameters`
sequence is reproduced exactly, element for element, preserving order and
duplicates. -/
theorem vex_parameters_roundtrip (store : List Attestation)
    (att : Attestation) (p : VEXPayload)
    (h : att.payload = some (AttestationPayload.vex p)) :
    ∃ r, retrieveAttestation (storeAttestation store att) att.digest = some r
      ∧ r.payload = some (AttestationPayload.vex p)
      ∧ ∃ q, r.payload = some (AttestationPayload.vex q)
          ∧ q.invocation.parameters = p.invocation.parameters := by
  refine ⟨att, ?_, h, p, h, rfl⟩
  unfold retrieveAttestation storeAttestation
  simp

theorem vex_parameters_roundtrip_witness :
    ∃ r, retrieveAttestation
        (storeAttestation []
          (Attestation.mk "sha256:att" none none
            (some (AttestationPayload.vex
              (VEXPayload.mk (VEXInvocation.mk ["-a", "-a", "-b"] "u" "e" "p" "d")
                (VEXScanner.mk "su" "sv" "du" "dv") [])))
            none none [] []))
        (Attestation.mk "sha256:att" none none
            (some (AttestationPayload.vex
              (VEXPayload.mk (VEXInvocation.mk ["-a", "-a", "-b"] "u" "e" "p" "d")
                (VEXScanner.mk "su" "sv" "du" "dv") [])))
            none none [] []).digest = some r
      ∧ r.payload = some (AttestationPayload.vex
              (VEXPayload.mk (VEXInvocation.mk ["-a", "-a", "-b"] "u" "e" "p" "d")
                (VEXScanner.mk "su" "sv" "du" "dv") []))
      ∧ ∃ q, r.payload = some (AttestationPayload.vex q)
          ∧ q.invocation.parameters
              = (VEXInvocation.mk ["-a", "-a", "-b"] "u" "e" "p" "d").parameters :=
  vex_parameters_roundtrip []
    (Attestation.mk "sha256:att" none none
      (some (AttestationPayload.vex
        (VEXPayload.mk (VEXInvocation.mk ["-a", "-a", "-b"] "u" "e" "p" "d")
          (VEXScanner.mk "su" "sv" "du" "dv") [])))
      none none [] [])
    (VEXPayload.mk (VEXInvocation.mk ["-a", "-a", "-b"] "u" "e" "p" "d")
      (VEXScanner.mk "su" "sv" "du" "dv") [])
    rfl

/-- Claim C9: in any interleaving of listing calls issued by concurrent
callers against one backend instance, with no writes in the contract's
surface, every caller's observed result equals the listing of the initial
storage state — each call sees a single logical snapshot and no caller
observes another caller's in-flight activity. -/
theorem concurrent_listing_single_snapshot (st : StorageState)
    (sched : List BackendOp) :
    ∀ r ∈ runSchedule st sched, r.2 = listArtifacts st := by
  induction sched with
  | nil =>
    intro r hr
    exact absurd hr (List.not_mem_nil r)
  | cons op rest ih =>
    intro r hr
    cases op with
    | listOp caller =>
      rcases hr with _ | ⟨_, hmem⟩
      · rfl
      · exact ih r hmem

theorem concurrent_listing_single_snapshot_witness :
    ((1, Except.ok ([] : List Artifact)) : Nat × Except GuacError (List Artifact)).2
      = listArtifacts (StorageState.mk true []) :=
  concurrent_listing_single_snapshot (StorageState.mk true [])
    [BackendOp.listOp 1, BackendOp.listOp 2]
    (1, Except.ok ([] : List Artifact)) (List.Mem.head _)

theorem allowedReach_closed :
    ∀ n ∈ allowedReach, ∀ m ∈ succs n, m ∈ allowedReach := by decide

/-- Claim C10: from the schema's sole query root, only the `Artifact`,
`Package` and `Builder` node types (plus the `ArtifactOrPackage` union and
the `String` scalar) are reachable along declared edges; `Attestation`,
`Metadata`, `Identity`, `Vulnerability` and every payload type are
unreachable from the query root. -/
theorem query_reaches_only_artifact_package_builder :
    (∀ n, ReachableFromQuery n → n ∈ allowedReach)
    ∧ ReachableFromQuery "Artifact"
    ∧ ReachableFromQuery "Package"
    ∧ ReachableFromQuery "Builder"
    ∧ ¬ ReachableFromQuery "Attestation"
    ∧ ¬ ReachableFromQuery "Metadata"
    ∧ ¬ ReachableFromQuery "Identity"
    ∧ ¬ ReachableFromQuery "Vulnerability"
    ∧ ¬ ReachableFromQuery "AttestationPayload"
    ∧ ¬ ReachableFromQuery "MetadataPayload"
    ∧ ¬ ReachableFromQuery "VEXPayload"
    ∧ ¬ ReachableFromQuery "ScorecardPayload"
    ∧ ¬ ReachableFromQuery "VEXInvocation"
    ∧ ¬ ReachableFromQuery "VEXScanner"
    ∧ ¬ ReachableFromQuery "VEXVulnerability" := by
  have hmain : ∀ n, ReachableFromQuery n → n ∈ allowedReach := by
    intro n h
    induction h with
    | root => decide
    | step hn hm ih => exact allowedReach_closed _ ih _ hm
  have hart : ReachableFromQuery "Artifact" :=
    .step .root (by decide)
  have haop : ReachableFromQuery "ArtifactOrPackage" :=
    .step hart (by decide)
  refine ⟨hmain, hart, .step haop (by decide), .step hart (by decide),
    ?_, ?_, ?_, ?_, ?_, ?_, ?_, ?_, ?_, ?_, ?_⟩
  all_goals exact fun h => absurd (hmain _ h) (by decide)

theorem query_reaches_only_artifact_package_builder_witness :
    "Query" ∈ allowedReach :=
  query_reaches_only_artifact_package_builder.1 "Query" ReachableFromQuery.root

theorem backend_args_unconstrained_witness :
    satisfiesGoInterface [] backendArgsContract :=
  backend_args_unconstrained.2 []
